import Mathlib

/-!
Verification of the Change Analysis & Commit Organization engine and the
documentation generator of the sonar-jacoco-analyzer repository.

Python strings are modelled as lists of characters (`PyStr`), restricted to
the ASCII behaviour of the Python string methods actually used by the code
(`strip`, `isdigit`, `lower`, `split`, `count`, slicing, `in`).  Effectful
code (subprocess calls, the OpenAI client, the filesystem) is modelled by an
explicit collaborator environment, and the observable effects of a run are
returned in an explicit result record.
-/

namespace SonarJacoco

/-- Python strings, modelled as lists of characters. -/
abbrev PyStr := List Char

/-- Convert a Lean string literal to the `PyStr` model. -/
def pystr (s : String) : PyStr := s.data

/-- The characters stripped by Python `str.strip()` with no argument
(ASCII whitespace: space, tab, newline, carriage return, vertical tab,
form feed). -/
def py_ws_char (c : Char) : Bool :=
  c == ' ' || c == '\t' || c == '\n' || c == '\r' || c == '\x0b' || c == '\x0c'

/-- Python `str.strip()`: remove leading and trailing whitespace. -/
def py_strip (s : PyStr) : PyStr :=
  (((s.dropWhile py_ws_char).reverse).dropWhile py_ws_char).reverse

/-- ASCII decimal digit test, the fragment of Python `str.isdigit` used by
history entries typed at the CLI. -/
def py_digit_char (c : Char) : Bool :=
  decide (48 ≤ c.toNat) && decide (c.toNat ≤ 57)

/-- Python `str.isdigit()`: non-empty and every character a digit. -/
def py_isdigit (s : PyStr) : Bool :=
  !s.isEmpty && s.all py_digit_char

/-- Python `str.lower()` on ASCII text. -/
def py_lower (s : PyStr) : PyStr := s.map Char.toLower

/-- Python `str.split(sep)` for a one-character separator: split at every
occurrence of the separator, keeping empty segments. -/
def split_on_char (P : Char → Bool) : PyStr → List PyStr
  | [] => [[]]
  | c :: cs =>
    match split_on_char P cs with
    | [] => [[]]
    | h :: t => if P c then [] :: h :: t else (c :: h) :: t

/-- Python `str.split()` with no argument: split on whitespace runs and
drop the empty segments. -/
def py_split_ws (s : PyStr) : List PyStr :=
  (split_on_char py_ws_char s).filter (fun p => !p.isEmpty)

/-- The `menu_patterns` set of `commit_cli.is_meaningful_history_entry`. -/
def menu_patterns : List PyStr :=
  [pystr "all", pystr "q", pystr "yes", pystr "no", pystr "y", pystr "n",
   pystr "approve", pystr "edit", pystr "regenerate", pystr "cancel"]

/-- `all(part.isdigit() for part in s.split("-") if part)`: every non-empty
`-`-separated part of `s` consists of digits. -/
def digit_parts_ok (s : PyStr) : Bool :=
  ((split_on_char (fun c => c == '-') s).filter (fun p => !p.isEmpty)).all py_isdigit

/-- Translation of `commit_cli.is_meaningful_history_entry` (lines 93-136).
The Python function rebinds `entry` to `entry.strip()`; here the stripped
value is written out at each use. -/
def is_meaningful_history_entry (entry : PyStr) : Bool :=
  if entry.isEmpty || (py_strip entry).isEmpty then false
  else if (py_strip entry).length == 1 then false
  else if py_isdigit (py_strip entry) then false
  else if menu_patterns.contains (py_lower (py_strip entry)) then false
  else if (py_strip entry).contains '-' && digit_parts_ok (py_strip entry) then false
  else if (py_split_ws (py_strip entry)).all (fun part =>
      py_isdigit part || (part.count '-' == 1 && digit_parts_ok part)) then false
  else true

/-- A token of the form digits, `-`, digits — the literal reading of the
phrase "a single digit-digit range" in claim C9. -/
def is_digit_digit_range (t : PyStr) : Bool :=
  match split_on_char (fun c => c == '-') t with
  | [a, b] => py_isdigit a && py_isdigit b
  | _ => false

/-- The conditions under which claim C9, read literally, says
`is_meaningful_history_entry` returns `False`: the trimmed entry is empty,
a single character, all digits, a menu word (case-insensitively), a range
containing `-` whose non-empty `-`-separated parts are all digits, or a
whitespace-separated list in which every token is digits or a single
digit-digit range. -/
def claim_filtered (entry : PyStr) : Bool :=
  (py_strip entry).isEmpty
    || (py_strip entry).length == 1
    || py_isdigit (py_strip entry)
    || menu_patterns.contains (py_lower (py_strip entry))
    || ((py_strip entry).contains '-' && digit_parts_ok (py_strip entry))
    || (py_split_ws (py_strip entry)).all (fun part =>
        py_isdigit part || is_digit_digit_range part)

/-- Claim C9's predicate: meaningful exactly when none of the filtered
conditions hold. -/
def claim_meaningful (entry : PyStr) : Bool := !(claim_filtered entry)

/-- The amended conditions: as in `claim_filtered`, but a token of a
whitespace-separated list may be digits or contain exactly one `-` with
every non-empty `-`-separated part consisting of digits (the code accepts
one-sided and bare ranges such as `"1-"` or `"-"` in the token list). -/
def amended_filtered (entry : PyStr) : Bool :=
  (py_strip entry).isEmpty
    || (py_strip entry).length == 1
    || py_isdigit (py_strip entry)
    || menu_patterns.contains (py_lower (py_strip entry))
    || ((py_strip entry).contains '-' && digit_parts_ok (py_strip entry))
    || (py_split_ws (py_strip entry)).all (fun part =>
        py_isdigit part || (part.count '-' == 1 && digit_parts_ok part))

/-! ### Documentation generator (`sonar_jacoco_analyzer/docs_generator.py`)

The git subprocesses, `os.getenv`, the OpenAI client and path resolution are
collaborators; they are supplied as an explicit environment `Collab`.  The
observable effects of `run_docs_generator` (the diff handed to
`generate_docs`, the directory created, the file written) are recorded in
the result record `RunResult`. -/

/-- Outcome of one `subprocess.run` git invocation: normal exit with its
stdout, a `CalledProcessError` (carrying `str(e)` and the process stderr),
or a `FileNotFoundError` because git is not installed. -/
inductive Subproc where
  | ok (stdout : PyStr)
  | err (msg : PyStr) (stderr : PyStr)
  | noGit
deriving DecidableEq

/-- Outcome of the OpenAI chat-completion call made by `generate_docs`:
the returned message content, or `str(e)` of the raised exception. -/
inductive ApiResult where
  | ok (content : PyStr)
  | exn (msg : PyStr)
deriving DecidableEq

/-- The Python exceptions raised by the diff and generation helpers:
`ValueError`, `RuntimeError` (each carrying `str(e)`), and the `KeyError`
raised by `PROVIDERS[provider_key]` for an unknown key. -/
inductive PyErr where
  | valueError (msg : PyStr)
  | runtimeError (msg : PyStr)
  | keyError (key : PyStr)
deriving DecidableEq

/-- The fields of a `PROVIDERS` entry used by `generate_docs`. -/
structure ProviderCfg where
  env_var : PyStr
  model : PyStr
deriving DecidableEq

/-- The `PROVIDERS` configuration map; `none` models a `KeyError` on
lookup. -/
def PROVIDERS (key : PyStr) : Option ProviderCfg :=
  if key = pystr "openai" then
    some ⟨pystr "OPENAI_API_KEY", pystr "gpt-4-turbo"⟩
  else if key = pystr "deepseek" then
    some ⟨pystr "DEEPSEEK_API_KEY", pystr "deepseek-chat"⟩
  else none

/-- Collaborator environment of one documentation-generator run: results of
the four git subprocess invocations, the process environment, the API call
(model and user-message content to reply or `str` of the raised exception),
and path resolution (`os.path.abspath` composed with
`os.path.expanduser`). -/
structure Collab where
  gitDiffHead : Subproc
  gitDiffCached : Subproc
  gitDiffWorktree : Subproc
  gitShow : PyStr → Subproc
  getenv : PyStr → Option PyStr
  apiCall : PyStr → PyStr → ApiResult
  resolvePath : PyStr → PyStr

/-- Shared wrapping of a git subprocess result used by `get_git_diff`,
`get_staged_diff` and `get_unstaged_diff` (docs_generator.py lines 54-132):
stdout on success, otherwise a `RuntimeError` naming the repository or the
missing git binary. -/
def wrap_git (r : Subproc) (repo_path : PyStr) : Except PyErr PyStr :=
  match r with
  | .ok out => .ok out
  | .err m _ =>
      .error (.runtimeError
        (pystr "Error running git in " ++ repo_path ++ pystr ": " ++ m))
  | .noGit => .error (.runtimeError (pystr "Git is not installed."))

/-- `get_git_diff`: `git diff HEAD~1 HEAD`. -/
def get_git_diff (env : Collab) (repo_path : PyStr) : Except PyErr PyStr :=
  wrap_git env.gitDiffHead repo_path

/-- `get_staged_diff`: `git diff --cached`. -/
def get_staged_diff (env : Collab) (repo_path : PyStr) : Except PyErr PyStr :=
  wrap_git env.gitDiffCached repo_path

/-- `get_unstaged_diff`: `git diff`. -/
def get_unstaged_diff (env : Collab) (repo_path : PyStr) : Except PyErr PyStr :=
  wrap_git env.gitDiffWorktree repo_path

/-- `get_commit_diff`: `git show --format= <commit>`; its `RuntimeError`
message prefers the stripped stderr when non-empty (docs_generator.py
lines 135-160). -/
def get_commit_diff (env : Collab) (commit_id : PyStr) : Except PyErr PyStr :=
  match env.gitShow commit_id with
  | .ok out => .ok out
  | .err m st =>
      .error (.runtimeError
        (pystr "Error getting commit " ++ commit_id ++ pystr ": "
          ++ (if st.isEmpty then m else py_strip st)))
  | .noGit => .error (.runtimeError (pystr "Git is not installed."))

/-- `generate_docs` (docs_generator.py lines 163-200): provider lookup
(`KeyError` for unknown keys), API-key check (`ValueError` when the
variable is unset or empty), then the chat-completion call, whose
exception is re-raised as
`RuntimeError("Error calling API: " + str(e))`. -/
def generate_docs (env : Collab) (diff_content provider_key : PyStr) :
    Except PyErr PyStr :=
  match PROVIDERS provider_key with
  | none => .error (.keyError provider_key)
  | some cfg =>
    match env.getenv cfg.env_var with
    | none =>
        .error (.valueError (cfg.env_var ++ pystr " environment variable not found."))
    | some k =>
      if k.isEmpty then
        .error (.valueError (cfg.env_var ++ pystr " environment variable not found."))
      else
        match env.apiCall cfg.model (pystr "Here is the Git Diff:\n\n" ++ diff_content) with
        | .ok content => .ok content
        | .exn m => .error (.runtimeError (pystr "Error calling API: " ++ m))

/-- The value of `str(e)` that `run_docs_generator` returns for a caught
exception. -/
def errMsg : PyErr → PyStr
  | .valueError m => m
  | .runtimeError m => m
  | .keyError k => k

/-- Result of the diff-selection block of `run_docs_generator`
(lines 230-252): a diff, or an early `return False, msg` (invalid source,
missing commit id, or a caught `RuntimeError`). -/
inductive GetChanges where
  | ok (diff : PyStr)
  | fail (msg : PyStr)
deriving DecidableEq

/-- Lift a git helper result into the `try`/`except RuntimeError` of
`run_docs_generator`. -/
def toGetChanges : Except PyErr PyStr → GetChanges
  | .ok d => .ok d
  | .error e => .fail (errMsg e)

/-- The `diff_source` dispatch of `run_docs_generator` (lines 230-252).
For `"all"` the staged diff is fetched first; if it raises, the unstaged
diff is never requested. -/
def get_changes (env : Collab) (repo_path diff_source : PyStr)
    (commit_id : Option PyStr) : GetChanges :=
  if diff_source = pystr "commit" then
    toGetChanges (get_git_diff env repo_path)
  else if diff_source = pystr "staged" then
    toGetChanges (get_staged_diff env repo_path)
  else if diff_source = pystr "unstaged" then
    toGetChanges (get_unstaged_diff env repo_path)
  else if diff_source = pystr "all" then
    match get_staged_diff env repo_path with
    | .error e => .fail (errMsg e)
    | .ok staged =>
      match get_unstaged_diff env repo_path with
      | .error e => .fail (errMsg e)
      | .ok unstaged => .ok (staged ++ pystr "\n" ++ unstaged)
  else if diff_source = pystr "current_commit" then
    toGetChanges (get_commit_diff env (pystr "HEAD"))
  else if diff_source = pystr "specific_commit" then
    match commit_id with
    | none => .fail (pystr "No commit ID provided for specific_commit source.")
    | some cid =>
      if cid.isEmpty then
        .fail (pystr "No commit ID provided for specific_commit source.")
      else toGetChanges (get_commit_diff env cid)
  else .fail (pystr "Invalid diff_source: " ++ diff_source)

/-- Python substring containment `needle in hay`. -/
def py_in (needle : PyStr) : PyStr → Bool
  | [] => needle.isEmpty
  | c :: cs => needle.isPrefixOf (c :: cs) || py_in needle cs

/-- How a `run_docs_generator` call ends: a normal `(success, message)`
return, or an exception escaping the function (the uncaught `KeyError`). -/
inductive RunOutcome where
  | ret (success : Bool) (message : PyStr)
  | raised (e : PyErr)
deriving DecidableEq

/-- Observable behaviour of one `run_docs_generator` call: how it ended,
the diff argument passed to `generate_docs` (if it was invoked), the
directory handed to `os.makedirs` (if reached), and the path and content of
the file written (if reached). -/
structure RunResult where
  outcome : RunOutcome
  sentDiff : Option PyStr
  madeDirs : Option PyStr
  written : Option (PyStr × PyStr)
deriving DecidableEq

/-- The provider-specific character limit of the safety truncation
(docs_generator.py line 258). -/
def diff_limit (provider : PyStr) : Nat :=
  if provider = pystr "deepseek" then 30000 else 15000

/-- `diff[:limit]` applied only when `len(diff) > limit`
(docs_generator.py lines 259-262). -/
def truncate_diff (provider diff : PyStr) : PyStr :=
  if diff_limit provider < diff.length then diff.take (diff_limit provider) else diff

/-- The part of `run_docs_generator` after a diff has been selected
(docs_generator.py lines 254-284): empty-diff check, safety truncation,
content generation, and the `NO_UPDATES` / save-output branch. -/
def process_diff (env : Collab) (outDir provider diff : PyStr) : RunResult :=
  if (py_strip diff).isEmpty then
    ⟨.ret false (pystr "No changes found."), none, none, none⟩
  else
    match generate_docs env (truncate_diff provider diff) provider with
    | .error (.valueError m) =>
        ⟨.ret false m, some (truncate_diff provider diff), none, none⟩
    | .error (.runtimeError m) =>
        ⟨.ret false m, some (truncate_diff provider diff), none, none⟩
    | .error (.keyError k) =>
        ⟨.raised (.keyError k), some (truncate_diff provider diff), none, none⟩
    | .ok docs_update =>
      if py_in (pystr "NO_UPDATES") docs_update then
        ⟨.ret true (pystr "No documentation updates required."),
          some (truncate_diff provider diff), none, none⟩
      else
        ⟨.ret true
          ((if diff_limit provider < diff.length then
              pystr "Warning: Diff was truncated to "
                ++ (Nat.repr (diff_limit provider)).data
                ++ pystr " chars.\n"
            else [])
            ++ pystr "Documentation saved to: "
            ++ (outDir ++ pystr "/docs_suggestion.md")),
          some (truncate_diff provider diff),
          some outDir,
          some (outDir ++ pystr "/docs_suggestion.md", docs_update)⟩

/-- The output directory used by `run_docs_generator` (lines 223-228):
the resolved explicit directory, or `<resolved repo>/docs`. -/
def resolve_out_dir (env : Collab) (repo_path : PyStr)
    (output_dir : Option PyStr) : PyStr :=
  match output_dir with
  | some d => env.resolvePath d
  | none => env.resolvePath repo_path ++ pystr "/docs"

/-- `run_docs_generator` (docs_generator.py lines 203-284): resolve paths,
select the diff, then process it. -/
def run_docs_generator (env : Collab) (repo_path : PyStr)
    (output_dir : Option PyStr) (provider diff_source : PyStr)
    (commit_id : Option PyStr) : RunResult :=
  match get_changes env (env.resolvePath repo_path) diff_source commit_id with
  | .fail m => ⟨.ret false m, none, none, none⟩
  | .ok diff =>
      process_diff env (resolve_out_dir env repo_path output_dir) provider diff

/-! ### Commit Splitter and Change Metrics Calculator (modelled from the spec)

The repository modules `commit_splitter.py` and `git_operations.py` that
implement `CommitSplitter.analyze` and the complexity score are not part of
the provided sources; only their caller `commit_cli.run_local_workflow` is.
The definitions below are therefore modelled from the specification
(sections 3, 4.2 and 4.5). -/

/-- Modelled from the spec: the `ChangeCategory` enumeration of section 3. -/
inductive ChangeCategory where
  | source
  | test
  | documentation
  | configuration
  | buildOrCI
  | style
  | other
deriving DecidableEq

/-- Modelled from the spec: the `FileStatus` variants of a `FileChange`. -/
inductive FileStatus where
  | added
  | modified
  | deleted
  | renamed
deriving DecidableEq

/-- Modelled from the spec: a per-file change record (section 3). -/
structure FileChange where
  path : PyStr
  status : FileStatus
  additions : Nat
  deletions : Nat
deriving DecidableEq

/-- Modelled from the spec: the `ChangeMetrics` summary (section 3); the
score is a rational so that the line-volume factor can be smaller than the
per-file weight. -/
structure ChangeMetrics where
  total_files : Nat
  directories_affected : Nat
  complexity_score : ℚ
deriving DecidableEq

/-- Modelled from the spec: the tunable weighting constants of the
complexity score (section 4.2); the exact values are policy, the
constraints used by the theorems are positivity and the line factor being
smaller than the per-file weight. -/
structure Weights where
  wFile : ℚ
  wLine : ℚ
  wDir : ℚ
  wCat : ℚ
deriving DecidableEq

/-- Modelled from the spec: the complexity-score formula of section 4.2 as
a function of the four aggregate quantities: file count weighted by the
per-file weight, total changed lines by the line-volume factor, plus
penalty terms proportional to directories affected and category
diversity. -/
def complexity_score (w : Weights) (files lines dirs cats : Nat) : ℚ :=
  w.wFile * files + w.wLine * lines + w.wDir * dirs + w.wCat * cats

/-- Total added plus deleted lines of a changeset. -/
def total_lines (changes : List FileChange) : Nat :=
  (changes.map (fun f => f.additions + f.deletions)).sum

/-- Modelled from the spec: the number of distinct directory prefixes
across the changed paths; the prefix extraction (top-level or configurable
depth) is a parameter. -/
def dirs_affected (topDir : PyStr → PyStr) (changes : List FileChange) : Nat :=
  ((changes.map (fun f => topDir f.path)).dedup).length

/-- Modelled from the spec: the number of distinct change categories
present; the path classifier of section 4.3 is a parameter. -/
def cat_diversity (classify : PyStr → ChangeCategory)
    (changes : List FileChange) : Nat :=
  ((changes.map (fun f => classify f.path)).dedup).length

/-- Modelled from the spec: the complexity score of a changeset, the
formula of section 4.2 applied to the aggregates of the changeset. -/
def changeset_complexity (w : Weights) (classify : PyStr → ChangeCategory)
    (topDir : PyStr → PyStr) (changes : List FileChange) : ℚ :=
  complexity_score w changes.length (total_lines changes)
    (dirs_affected topDir changes) (cat_diversity classify changes)

/-- Modelled from the spec: a `SplitGroup` (section 3); the message-related
fields (`suggested_type`, `description`, totals) are derived data not
needed by the claims about the partition. -/
structure SplitGroup where
  name : PyStr
  category : ChangeCategory
  files : List FileChange
deriving DecidableEq

/-- Modelled from the spec: a `SplitProposal` (section 3). -/
structure SplitProposal where
  should_split : Bool
  rationale : PyStr
  groups : List SplitGroup
deriving DecidableEq

/-- Display name of a category, used as the group name. -/
def categoryName : ChangeCategory → PyStr
  | .source => pystr "source"
  | .test => pystr "test"
  | .documentation => pystr "documentation"
  | .configuration => pystr "configuration"
  | .buildOrCI => pystr "build-ci"
  | .style => pystr "style"
  | .other => pystr "other"

/-- Modelled from the spec: the commit-application order of section 4.5
step 4 — Configuration and Build/CI first, then Source, Test, Style, and
Documentation last; the spec does not place `Other`, which is put before
Documentation. -/
def categoryOrder : List ChangeCategory :=
  [.configuration, .buildOrCI, .source, .test, .style, .other, .documentation]

/-- The files of a changeset classified into one category
(section 4.5 step 2). -/
def catFiles (classify : PyStr → ChangeCategory) (changes : List FileChange)
    (c : ChangeCategory) : List FileChange :=
  changes.filter (fun f => decide (classify f.path = c))

/-- Modelled from the spec: section 4.5 step 3 — a Style group smaller than
the minimum viable size merges into the Source group, unless no Source
group exists. -/
def mergeStyle (classify : PyStr → ChangeCategory) (minViable : Nat)
    (changes : List FileChange) : Bool :=
  !(catFiles classify changes .style).isEmpty
    && (catFiles classify changes .style).length < minViable
    && !(catFiles classify changes .source).isEmpty

/-- Modelled from the spec: section 4.5 step 3 — a Configuration group
smaller than the minimum viable size merges into the Build/CI group,
unless no Build/CI group exists. -/
def mergeConfig (classify : PyStr → ChangeCategory) (minViable : Nat)
    (changes : List FileChange) : Bool :=
  !(catFiles classify changes .configuration).isEmpty
    && (catFiles classify changes .configuration).length < minViable
    && !(catFiles classify changes .buildOrCI).isEmpty

/-- The files assigned to each category's group after the merge step. -/
def groupFiles (classify : PyStr → ChangeCategory) (minViable : Nat)
    (changes : List FileChange) : ChangeCategory → List FileChange
  | .source =>
      catFiles classify changes .source
        ++ (if mergeStyle classify minViable changes then
              catFiles classify changes .style else [])
  | .style =>
      if mergeStyle classify minViable changes then []
      else catFiles classify changes .style
  | .buildOrCI =>
      catFiles classify changes .buildOrCI
        ++ (if mergeConfig classify minViable changes then
              catFiles classify changes .configuration else [])
  | .configuration =>
      if mergeConfig classify minViable changes then []
      else catFiles classify changes .configuration
  | .test => catFiles classify changes .test
  | .documentation => catFiles classify changes .documentation
  | .other => catFiles classify changes .other

/-- Modelled from the spec: section 4.5 steps 1-4 — one group per
non-empty category after merging, in commit-application order. -/
def makeGroups (classify : PyStr → ChangeCategory) (minViable : Nat)
    (changes : List FileChange) : List SplitGroup :=
  categoryOrder.filterMap (fun c =>
    if groupFiles classify minViable changes c = [] then none
    else some ⟨categoryName c, c, groupFiles classify minViable changes c⟩)

/-- Modelled from the spec: the fixed-format rationale naming the triggers
that fired. -/
def splitRationale (fileTrigger complexityTrigger : Bool) (nGroups : Nat) : PyStr :=
  (if fileTrigger then pystr "file count over limit; " else [])
    ++ (if complexityTrigger then pystr "complexity over threshold; " else [])
    ++ (Nat.repr nGroups).data ++ pystr " groups proposed"

namespace CommitSplitter

/-- Modelled from the spec: `CommitSplitter.analyze` (section 4.5).  The
split triggers when `total_files > max_commit_size` or
`complexity_score > complexity_threshold`; the partition is only built when
a split is proposed, otherwise `groups` is empty; an empty changeset is a
malformed input reported as an error (section 4.5, state machine). -/
def analyze (classify : PyStr → ChangeCategory) (minViable : Nat)
    (max_commit_size : Nat) (complexity_threshold : ℚ)
    (changes : List FileChange) (metrics : ChangeMetrics) :
    Except PyStr SplitProposal :=
  if changes = [] then .error (pystr "empty changes")
  else
    .ok
      ⟨decide (metrics.total_files > max_commit_size)
          || decide (metrics.complexity_score > complexity_threshold),
        splitRationale (decide (metrics.total_files > max_commit_size))
          (decide (metrics.complexity_score > complexity_threshold))
          (makeGroups classify minViable changes).length,
        if decide (metrics.total_files > max_commit_size)
            || decide (metrics.complexity_score > complexity_threshold) then
          makeGroups classify minViable changes
        else []⟩

end CommitSplitter

/-! ### Concrete environments and data for witnesses -/

/-- Environment for the C3 witness: a three-character staged diff under the
default provider. -/
def envC3 : Collab :=
  ⟨.ok [], .ok (pystr "abc"), .ok [], fun _ => .ok [],
    fun _ => some (pystr "k"), fun _ _ => .ok (pystr "text"), fun s => s⟩

/-- Environment for the C5 witness: a whitespace-only `git diff HEAD~1
HEAD`. -/
def envC5 : Collab :=
  ⟨.ok (pystr " \n\t "), .ok [], .ok [], fun _ => .ok [],
    fun _ => some (pystr "k"), fun _ _ => .ok (pystr "text"), fun s => s⟩

/-- Environment for the C10 witness: staged diff `"S"`, unstaged diff
`"U"`. -/
def envC10 : Collab :=
  ⟨.ok [], .ok (pystr "S"), .ok (pystr "U"), fun _ => .ok [],
    fun _ => some (pystr "k"), fun _ _ => .ok (pystr "NO_UPDATES"),
    fun s => s⟩

/-- Environment for the C8 witness: generation succeeds with content
containing `NO_UPDATES`. -/
def envC8 : Collab :=
  ⟨.ok (pystr "diff text"), .ok [], .ok [], fun _ => .ok [],
    fun _ => some (pystr "k"), fun _ _ => .ok (pystr "NO_UPDATES"),
    fun s => s⟩

/-- Environment for the C7 witness (same failing git collaborator as the
counterexample, written as a named definition). -/
def envC7 : Collab :=
  ⟨.err (pystr "boom") [], .ok [], .ok [], fun _ => .ok [],
    fun _ => none, fun _ _ => .exn [], fun s => s⟩

/-- Environment for the C6 witness: git fails with a
`CalledProcessError`. -/
def envC6 : Collab :=
  ⟨.err (pystr "fatal") [], .ok [], .ok [], fun _ => .ok [],
    fun _ => some (pystr "k"), fun _ _ => .ok (pystr "t"), fun s => s⟩

/-- A one-file changeset used by the splitter and metrics witnesses. -/
def fcDemo : FileChange := ⟨pystr "a.py", .modified, 1, 0⟩

/-- A classifier sending every path to `source`, used by the witnesses. -/
def classifyDemo : PyStr → ChangeCategory := fun _ => .source

/-- A second demo file, distinct from `fcDemo`, for the C2 witness. -/
def fcDemo2 : FileChange := ⟨pystr "b.py", .added, 2, 0⟩

/-! ### Helper lemmas -/

theorem run_eq_process (env : Collab) (repo : PyStr) (out : Option PyStr)
    (p ds : PyStr) (cid : Option PyStr) (diff : PyStr)
    (h : get_changes env (env.resolvePath repo) ds cid = .ok diff) :
    run_docs_generator env repo out p ds cid =
      process_diff env (resolve_out_dir env repo out) p diff := by
  unfold run_docs_generator
  rw [h]

theorem run_eq_fail (env : Collab) (repo : PyStr) (out : Option PyStr)
    (p ds : PyStr) (cid : Option PyStr) (m : PyStr)
    (h : get_changes env (env.resolvePath repo) ds cid = .fail m) :
    run_docs_generator env repo out p ds cid =
      ⟨.ret false m, none, none, none⟩ := by
  unfold run_docs_generator
  rw [h]

theorem process_diff_sent (env : Collab) (outDir p diff d : PyStr)
    (h : (process_diff env outDir p diff).sentDiff = some d) :
    d = truncate_diff p diff := by
  unfold process_diff at h
  split at h
  · simp at h
  · split at h
    · simp_all
    · simp_all
    · simp_all
    · split at h <;> simp_all

theorem length_truncate (p diff : PyStr) :
    (truncate_diff p diff).length ≤ diff_limit p ∨
      (truncate_diff p diff).length = diff.length := by
  unfold truncate_diff
  split
  · left
    simp [List.length_take]
  · right
    rfl

/-! ### Claim theorems -/

/-- Claim C3: the diff text handed to `generate_docs` is bounded by the
provider-specific character limit — at most 30000 characters for
`"deepseek"`, at most 15000 otherwise — and when truncation occurs it is
exactly the prefix of the original diff of that length (and the whole diff
when no truncation occurs). -/
theorem C3_sent_diff_truncated (env : Collab) (repo : PyStr)
    (out : Option PyStr) (p ds : PyStr) (cid : Option PyStr) (orig d : PyStr)
    (hg : get_changes env (env.resolvePath repo) ds cid = .ok orig)
    (hs : (run_docs_generator env repo out p ds cid).sentDiff = some d) :
    d.length ≤ diff_limit p ∧
    (p = pystr "deepseek" → d.length ≤ 30000) ∧
    (p ≠ pystr "deepseek" → d.length ≤ 15000) ∧
    (diff_limit p < orig.length → d = orig.take (diff_limit p)) ∧
    (orig.length ≤ diff_limit p → d = orig) := by
  rw [run_eq_process env repo out p ds cid orig hg] at hs
  have hd := process_diff_sent env (resolve_out_dir env repo out) p orig d hs
  subst hd
  have h1 : (truncate_diff p orig).length ≤ diff_limit p := by
    unfold truncate_diff
    split
    · simp [List.length_take]
    · omega
  refine ⟨h1, ?_, ?_, ?_, ?_⟩
  · intro hp
    have h2 : diff_limit p = 30000 := by simp [diff_limit, hp]
    omega
  · intro hp
    have h2 : diff_limit p = 15000 := by simp [diff_limit, hp]
    omega
  · intro hlt
    unfold truncate_diff
    rw [if_pos hlt]
  · intro hle
    unfold truncate_diff
    rw [if_neg (by omega)]

theorem C3_witness :
    (pystr "abc").length ≤ diff_limit (pystr "openai") ∧
    (pystr "openai" = pystr "deepseek" → (pystr "abc").length ≤ 30000) ∧
    (pystr "openai" ≠ pystr "deepseek" → (pystr "abc").length ≤ 15000) ∧
    (diff_limit (pystr "openai") < (pystr "abc").length →
      pystr "abc" = (pystr "abc").take (diff_limit (pystr "openai"))) ∧
    ((pystr "abc").length ≤ diff_limit (pystr "openai") →
      pystr "abc" = pystr "abc") :=
  C3_sent_diff_truncated envC3 (pystr ".") none (pystr "openai")
    (pystr "staged") none (pystr "abc") (pystr "abc") (by decide) (by decide)

/-- Claim C5: when the selected diff is empty or whitespace-only,
`run_docs_generator` returns `(False, "No changes found.")` at once, with
no call to `generate_docs`, no directory creation and no file written. -/
theorem C5_empty_diff (env : Collab) (repo : PyStr) (out : Option PyStr)
    (p ds : PyStr) (cid : Option PyStr) (orig : PyStr)
    (hg : get_changes env (env.resolvePath repo) ds cid = .ok orig)
    (he : py_strip orig = []) :
    run_docs_generator env repo out p ds cid =
      ⟨.ret false (pystr "No changes found."), none, none, none⟩ := by
  rw [run_eq_process env repo out p ds cid orig hg]
  unfold process_diff
  rw [if_pos (by simp [he])]

theorem C5_witness :
    run_docs_generator envC5 (pystr ".") none (pystr "openai")
      (pystr "commit") none =
      ⟨.ret false (pystr "No changes found."), none, none, none⟩ :=
  C5_empty_diff envC5 (pystr ".") none (pystr "openai") (pystr "commit") none
    (pystr " \n\t ") (by decide) (by decide)

/-- Claim C10: for `diff_source = "all"` the analyzed diff is exactly the
staged diff, one newline, then the unstaged diff; for a `diff_source`
outside the six recognised values the run fails at once — uniformly in the
collaborator environment, hence without invoking git or the
text-generation collaborator. -/
theorem C10_all_and_invalid_source (env : Collab) (repo : PyStr)
    (out : Option PyStr) (p ds : PyStr) (cid : Option PyStr) (s u : PyStr) :
    (ds = pystr "all" → env.gitDiffCached = .ok s →
     env.gitDiffWorktree = .ok u →
      get_changes env (env.resolvePath repo) ds cid =
        .ok (s ++ pystr "\n" ++ u) ∧
      run_docs_generator env repo out p ds cid =
        process_diff env (resolve_out_dir env repo out) p
          (s ++ pystr "\n" ++ u)) ∧
    (ds ≠ pystr "commit" → ds ≠ pystr "staged" → ds ≠ pystr "unstaged" →
     ds ≠ pystr "all" → ds ≠ pystr "current_commit" →
     ds ≠ pystr "specific_commit" →
      run_docs_generator env repo out p ds cid =
        ⟨.ret false (pystr "Invalid diff_source: " ++ ds),
          none, none, none⟩) := by
  constructor
  · intro hds hst hun
    subst hds
    have hg : get_changes env (env.resolvePath repo) (pystr "all") cid =
        .ok (s ++ pystr "\n" ++ u) := by
      unfold get_changes
      rw [if_neg (by decide), if_neg (by decide), if_neg (by decide),
        if_pos rfl]
      simp [get_staged_diff, get_unstaged_diff, wrap_git, hst, hun]
    exact ⟨hg, run_eq_process env repo out p (pystr "all") cid
      (s ++ pystr "\n" ++ u) hg⟩
  · intro h1 h2 h3 h4 h5 h6
    have hg : get_changes env (env.resolvePath repo) ds cid =
        .fail (pystr "Invalid diff_source: " ++ ds) := by
      unfold get_changes
      rw [if_neg h1, if_neg h2, if_neg h3, if_neg h4, if_neg h5, if_neg h6]
    exact run_eq_fail env repo out p ds cid _ hg

theorem C10_witness :
    get_changes envC10 (envC10.resolvePath (pystr ".")) (pystr "all") none =
      .ok (pystr "S" ++ pystr "\n" ++ pystr "U") ∧
    run_docs_generator envC10 (pystr ".") none (pystr "openai")
        (pystr "all") none =
      process_diff envC10 (resolve_out_dir envC10 (pystr ".") none)
        (pystr "openai") (pystr "S" ++ pystr "\n" ++ pystr "U") :=
  (C10_all_and_invalid_source envC10 (pystr ".") none (pystr "openai")
    (pystr "all") none (pystr "S") (pystr "U")).1 rfl (by decide) (by decide)

/-- Claim C8: once content generation succeeds, the run writes
`docs_suggestion.md` in the output directory exactly when the generated
text does not contain `NO_UPDATES`; when it does contain it, the run
returns `(True, "No documentation updates required.")` with no directory
created and no file written. -/
theorem C8_no_updates_gate (env : Collab) (repo : PyStr) (out : Option PyStr)
    (p ds : PyStr) (cid : Option PyStr) (orig c : PyStr)
    (hg : get_changes env (env.resolvePath repo) ds cid = .ok orig)
    (hne : (py_strip orig).isEmpty = false)
    (hgen : generate_docs env (truncate_diff p orig) p = .ok c) :
    (py_in (pystr "NO_UPDATES") c = true →
      run_docs_generator env repo out p ds cid =
        ⟨.ret true (pystr "No documentation updates required."),
          some (truncate_diff p orig), none, none⟩) ∧
    (py_in (pystr "NO_UPDATES") c = false →
      (run_docs_generator env repo out p ds cid).written =
        some (resolve_out_dir env repo out ++ pystr "/docs_suggestion.md", c)
      ∧ (run_docs_generator env repo out p ds cid).madeDirs =
          some (resolve_out_dir env repo out)) := by
  rw [run_eq_process env repo out p ds cid orig hg]
  unfold process_diff
  rw [if_neg (by simp [hne])]
  rw [hgen]
  constructor
  · intro h
    simp [h]
  · intro h
    simp [h]

theorem C8_witness :
    run_docs_generator envC8 (pystr ".") none (pystr "openai")
        (pystr "commit") none =
      ⟨.ret true (pystr "No documentation updates required."),
        some (truncate_diff (pystr "openai") (pystr "diff text")),
        none, none⟩ :=
  (C8_no_updates_gate envC8 (pystr ".") none (pystr "openai")
    (pystr "commit") none (pystr "diff text") (pystr "NO_UPDATES")
    (by decide) (by decide) rfl).1 (by decide)

/-- Counterexample to claim C7 as stated: a `CalledProcessError` whose
message is `"boom"` reaches the caller of `run_docs_generator` as
`"Error running git in /r: boom"`, not as the collaborator's message
unchanged. -/
theorem C7_counterexample :
    (run_docs_generator
        (⟨.err (pystr "boom") [], .ok [], .ok [], fun _ => .ok [],
          fun _ => none, fun _ _ => .exn [], fun s => s⟩ : Collab)
        (pystr "/r") none (pystr "openai") (pystr "commit") none).outcome =
      .ret false (pystr "Error running git in /r: boom") ∧
    pystr "Error running git in /r: boom" ≠ pystr "boom" := by
  decide

theorem get_changes_commit (env : Collab) (repo : PyStr)
    (cid : Option PyStr) :
    get_changes env repo (pystr "commit") cid =
      toGetChanges (get_git_diff env repo) := by
  unfold get_changes
  rw [if_pos rfl]

theorem get_changes_staged (env : Collab) (repo : PyStr)
    (cid : Option PyStr) :
    get_changes env repo (pystr "staged") cid =
      toGetChanges (get_staged_diff env repo) := by
  unfold get_changes
  rw [if_neg (by decide), if_pos rfl]

theorem get_changes_unstaged (env : Collab) (repo : PyStr)
    (cid : Option PyStr) :
    get_changes env repo (pystr "unstaged") cid =
      toGetChanges (get_unstaged_diff env repo) := by
  unfold get_changes
  rw [if_neg (by decide), if_neg (by decide), if_pos rfl]

theorem get_changes_all_eq (env : Collab) (repo : PyStr)
    (cid : Option PyStr) :
    get_changes env repo (pystr "all") cid =
      (match get_staged_diff env repo with
       | .error e => .fail (errMsg e)
       | .ok staged =>
         match get_unstaged_diff env repo with
         | .error e => .fail (errMsg e)
         | .ok unstaged => .ok (staged ++ pystr "\n" ++ unstaged)) := by
  unfold get_changes
  rw [if_neg (by decide), if_neg (by decide), if_neg (by decide), if_pos rfl]

theorem get_changes_current (env : Collab) (repo : PyStr)
    (cid : Option PyStr) :
    get_changes env repo (pystr "current_commit") cid =
      toGetChanges (get_commit_diff env (pystr "HEAD")) := by
  unfold get_changes
  rw [if_neg (by decide), if_neg (by decide), if_neg (by decide),
    if_neg (by decide), if_pos rfl]

theorem get_changes_specific (env : Collab) (repo cidv : PyStr)
    (h : cidv.isEmpty = false) :
    get_changes env repo (pystr "specific_commit") (some cidv) =
      toGetChanges (get_commit_diff env cidv) := by
  unfold get_changes
  rw [if_neg (by decide), if_neg (by decide), if_neg (by decide),
    if_neg (by decide), if_neg (by decide), if_pos rfl]
  simp [h]

/-- Claim C7 as amended: a collaborator error is never swallowed or
retried — it surfaces as a single `(False, message)` result whose message
embeds the collaborator's message verbatim inside a fixed wrapper:
`"Error running git in <repo>: <err>"` for a `CalledProcessError` of the
git diff subprocesses (sources `commit`, `staged`, `unstaged`, and both
legs of `all`), `"Error getting commit <id>: <stderr-or-err>"` for a
`CalledProcessError` of the git show subprocess (sources `current_commit`
and `specific_commit`, preferring the stripped stderr when non-empty),
`"Git is not installed."` when the git binary is missing on any of those
paths, and `"Error calling API: <err>"` for the text-generation call. -/
theorem C7_errors_propagated_wrapped (env : Collab) (repo : PyStr)
    (out : Option PyStr) (p ds : PyStr) (cid : Option PyStr)
    (m st s orig k em cidv : PyStr) (cfg : ProviderCfg) :
    (ds = pystr "commit" → env.gitDiffHead = .err m st →
      run_docs_generator env repo out p ds cid =
        ⟨.ret false (pystr "Error running git in " ++ env.resolvePath repo
            ++ pystr ": " ++ m), none, none, none⟩) ∧
    (ds = pystr "commit" → env.gitDiffHead = .noGit →
      run_docs_generator env repo out p ds cid =
        ⟨.ret false (pystr "Git is not installed."), none, none, none⟩) ∧
    (ds = pystr "staged" → env.gitDiffCached = .err m st →
      run_docs_generator env repo out p ds cid =
        ⟨.ret false (pystr "Error running git in " ++ env.resolvePath repo
            ++ pystr ": " ++ m), none, none, none⟩) ∧
    (ds = pystr "staged" → env.gitDiffCached = .noGit →
      run_docs_generator env repo out p ds cid =
        ⟨.ret false (pystr "Git is not installed."), none, none, none⟩) ∧
    (ds = pystr "unstaged" → env.gitDiffWorktree = .err m st →
      run_docs_generator env repo out p ds cid =
        ⟨.ret false (pystr "Error running git in " ++ env.resolvePath repo
            ++ pystr ": " ++ m), none, none, none⟩) ∧
    (ds = pystr "unstaged" → env.gitDiffWorktree = .noGit →
      run_docs_generator env repo out p ds cid =
        ⟨.ret false (pystr "Git is not installed."), none, none, none⟩) ∧
    (ds = pystr "all" → env.gitDiffCached = .err m st →
      run_docs_generator env repo out p ds cid =
        ⟨.ret false (pystr "Error running git in " ++ env.resolvePath repo
            ++ pystr ": " ++ m), none, none, none⟩) ∧
    (ds = pystr "all" → env.gitDiffCached = .noGit →
      run_docs_generator env repo out p ds cid =
        ⟨.ret false (pystr "Git is not installed."), none, none, none⟩) ∧
    (ds = pystr "all" → env.gitDiffCached = .ok s →
     env.gitDiffWorktree = .err m st →
      run_docs_generator env repo out p ds cid =
        ⟨.ret false (pystr "Error running git in " ++ env.resolvePath repo
            ++ pystr ": " ++ m), none, none, none⟩) ∧
    (ds = pystr "all" → env.gitDiffCached = .ok s →
     env.gitDiffWorktree = .noGit →
      run_docs_generator env repo out p ds cid =
        ⟨.ret false (pystr "Git is not installed."), none, none, none⟩) ∧
    (ds = pystr "current_commit" → env.gitShow (pystr "HEAD") = .err m st →
      run_docs_generator env repo out p ds cid =
        ⟨.ret false (pystr "Error getting commit " ++ pystr "HEAD"
            ++ pystr ": " ++ (if st.isEmpty then m else py_strip st)),
          none, none, none⟩) ∧
    (ds = pystr "current_commit" → env.gitShow (pystr "HEAD") = .noGit →
      run_docs_generator env repo out p ds cid =
        ⟨.ret false (pystr "Git is not installed."), none, none, none⟩) ∧
    (ds = pystr "specific_commit" → cid = some cidv →
     cidv.isEmpty = false → env.gitShow cidv = .err m st →
      run_docs_generator env repo out p ds cid =
        ⟨.ret false (pystr "Error getting commit " ++ cidv
            ++ pystr ": " ++ (if st.isEmpty then m else py_strip st)),
          none, none, none⟩) ∧
    (ds = pystr "specific_commit" → cid = some cidv →
     cidv.isEmpty = false → env.gitShow cidv = .noGit →
      run_docs_generator env repo out p ds cid =
        ⟨.ret false (pystr "Git is not installed."), none, none, none⟩) ∧
    (get_changes env (env.resolvePath repo) ds cid = .ok orig →
     (py_strip orig).isEmpty = false →
     PROVIDERS p = some cfg →
     env.getenv cfg.env_var = some k →
     k.isEmpty = false →
     env.apiCall cfg.model
        (pystr "Here is the Git Diff:\n\n" ++ truncate_diff p orig) =
       .exn em →
      run_docs_generator env repo out p ds cid =
        ⟨.ret false (pystr "Error calling API: " ++ em),
          some (truncate_diff p orig), none, none⟩) := by
  refine ⟨?_, ?_, ?_, ?_, ?_, ?_, ?_, ?_, ?_, ?_, ?_, ?_, ?_, ?_, ?_⟩
  · intro hds h
    subst hds
    refine run_eq_fail env repo out p (pystr "commit") cid _ ?_
    rw [get_changes_commit]
    simp [get_git_diff, wrap_git, h, toGetChanges, errMsg]
  · intro hds h
    subst hds
    refine run_eq_fail env repo out p (pystr "commit") cid _ ?_
    rw [get_changes_commit]
    simp [get_git_diff, wrap_git, h, toGetChanges, errMsg]
  · intro hds h
    subst hds
    refine run_eq_fail env repo out p (pystr "staged") cid _ ?_
    rw [get_changes_staged]
    simp [get_staged_diff, wrap_git, h, toGetChanges, errMsg]
  · intro hds h
    subst hds
    refine run_eq_fail env repo out p (pystr "staged") cid _ ?_
    rw [get_changes_staged]
    simp [get_staged_diff, wrap_git, h, toGetChanges, errMsg]
  · intro hds h
    subst hds
    refine run_eq_fail env repo out p (pystr "unstaged") cid _ ?_
    rw [get_changes_unstaged]
    simp [get_unstaged_diff, wrap_git, h, toGetChanges, errMsg]
  · intro hds h
    subst hds
    refine run_eq_fail env repo out p (pystr "unstaged") cid _ ?_
    rw [get_changes_unstaged]
    simp [get_unstaged_diff, wrap_git, h, toGetChanges, errMsg]
  · intro hds h
    subst hds
    refine run_eq_fail env repo out p (pystr "all") cid _ ?_
    rw [get_changes_all_eq]
    simp [get_staged_diff, wrap_git, h, errMsg]
  · intro hds h
    subst hds
    refine run_eq_fail env repo out p (pystr "all") cid _ ?_
    rw [get_changes_all_eq]
    simp [get_staged_diff, wrap_git, h, errMsg]
  · intro hds h1 h2
    subst hds
    refine run_eq_fail env repo out p (pystr "all") cid _ ?_
    rw [get_changes_all_eq]
    simp [get_staged_diff, get_unstaged_diff, wrap_git, h1, h2, errMsg]
  · intro hds h1 h2
    subst hds
    refine run_eq_fail env repo out p (pystr "all") cid _ ?_
    rw [get_changes_all_eq]
    simp [get_staged_diff, get_unstaged_diff, wrap_git, h1, h2, errMsg]
  · intro hds h
    subst hds
    refine run_eq_fail env repo out p (pystr "current_commit") cid _ ?_
    rw [get_changes_current]
    simp [get_commit_diff, h, toGetChanges, errMsg]
  · intro hds h
    subst hds
    refine run_eq_fail env repo out p (pystr "current_commit") cid _ ?_
    rw [get_changes_current]
    simp [get_commit_diff, h, toGetChanges, errMsg]
  · intro hds hcid hcne h
    subst hds
    subst hcid
    refine run_eq_fail env repo out p (pystr "specific_commit")
      (some cidv) _ ?_
    rw [get_changes_specific env (env.resolvePath repo) cidv hcne]
    simp [get_commit_diff, h, toGetChanges, errMsg]
  · intro hds hcid hcne h
    subst hds
    subst hcid
    refine run_eq_fail env repo out p (pystr "specific_commit")
      (some cidv) _ ?_
    rw [get_changes_specific env (env.resolvePath repo) cidv hcne]
    simp [get_commit_diff, h, toGetChanges, errMsg]
  · intro hg hne hprov hk hkne hapi
    rw [run_eq_process env repo out p ds cid orig hg]
    unfold process_diff
    rw [if_neg (by simp [hne])]
    have hgen : generate_docs env (truncate_diff p orig) p =
        .error (.runtimeError (pystr "Error calling API: " ++ em)) := by
      unfold generate_docs
      simp only [hprov, hk]
      rw [if_neg (by simp [hkne])]
      simp only [hapi]
    rw [hgen]

theorem C7_witness :
    run_docs_generator envC7 (pystr "/r") none (pystr "openai")
        (pystr "commit") none =
      ⟨.ret false (pystr "Error running git in /r: boom"),
        none, none, none⟩ :=
  (C7_errors_propagated_wrapped envC7 (pystr "/r") none (pystr "openai")
    (pystr "commit") none (pystr "boom") [] [] [] [] [] [] ⟨[], []⟩).1
    rfl (by decide)

/-- On every branch of `process_diff` that does not end in a successful
save, no directory is created and no file is written. -/
theorem process_diff_no_effects (env : Collab) (outDir p diff : PyStr) :
    (∀ m, (process_diff env outDir p diff).outcome = .ret false m →
      (process_diff env outDir p diff).madeDirs = none ∧
      (process_diff env outDir p diff).written = none) ∧
    (∀ e, (process_diff env outDir p diff).outcome = .raised e →
      (process_diff env outDir p diff).madeDirs = none ∧
      (process_diff env outDir p diff).written = none) := by
  unfold process_diff
  split
  · simp
  · split
    · simp
    · simp
    · simp
    · split <;> simp

/-- Counterexample to claim C6 as stated: with an unknown provider key the
`KeyError` raised by `PROVIDERS[provider_key]` is not caught by
`except (ValueError, RuntimeError)`, so the run escapes with an exception
instead of returning a `(False, message)` pair (though still writing
nothing). -/
theorem C6_counterexample :
    (run_docs_generator
        (⟨.ok (pystr "x"), .ok [], .ok [], fun _ => .ok [],
          fun _ => some (pystr "k"), fun _ _ => .ok (pystr "t"),
          fun s => s⟩ : Collab)
        (pystr ".") none (pystr "gemini") (pystr "commit") none).outcome =
      .raised (.keyError (pystr "gemini")) ∧
    (run_docs_generator
        (⟨.ok (pystr "x"), .ok [], .ok [], fun _ => .ok [],
          fun _ => some (pystr "k"), fun _ _ => .ok (pystr "t"),
          fun s => s⟩ : Collab)
        (pystr ".") none (pystr "gemini") (pystr "commit") none).written =
      none := by
  decide

/-- Claim C6 as amended: every failure in obtaining the diff yields a
single `(False, message)` result; a `ValueError`/`RuntimeError` from
content generation yields a single `(False, message)` result (an unknown
provider key instead escapes as an uncaught `KeyError`); and on every
failing path — normal failure return or escaping exception — no output
directory is created and no `docs_suggestion.md` is written. -/
theorem C6_no_partial_results (env : Collab) (repo : PyStr)
    (out : Option PyStr) (p ds : PyStr) (cid : Option PyStr) :
    (∀ m, get_changes env (env.resolvePath repo) ds cid = .fail m →
      run_docs_generator env repo out p ds cid =
        ⟨.ret false m, none, none, none⟩) ∧
    (∀ orig m, get_changes env (env.resolvePath repo) ds cid = .ok orig →
      (py_strip orig).isEmpty = false →
      (generate_docs env (truncate_diff p orig) p = .error (.valueError m) ∨
       generate_docs env (truncate_diff p orig) p = .error (.runtimeError m)) →
      run_docs_generator env repo out p ds cid =
        ⟨.ret false m, some (truncate_diff p orig), none, none⟩) ∧
    (∀ m, (run_docs_generator env repo out p ds cid).outcome = .ret false m →
      (run_docs_generator env repo out p ds cid).madeDirs = none ∧
      (run_docs_generator env repo out p ds cid).written = none) ∧
    (∀ e, (run_docs_generator env repo out p ds cid).outcome = .raised e →
      (run_docs_generator env repo out p ds cid).madeDirs = none ∧
      (run_docs_generator env repo out p ds cid).written = none) := by
  refine ⟨?_, ?_, ?_, ?_⟩
  · intro m h
    exact run_eq_fail env repo out p ds cid m h
  · intro orig m hg hne hgen
    rw [run_eq_process env repo out p ds cid orig hg]
    unfold process_diff
    rw [if_neg (by simp [hne])]
    rcases hgen with h | h <;> rw [h]
  · intro m h
    cases hgc : get_changes env (env.resolvePath repo) ds cid with
    | fail mm =>
        rw [run_eq_fail env repo out p ds cid mm hgc]
        simp
    | ok diff =>
        rw [run_eq_process env repo out p ds cid diff hgc] at h ⊢
        exact (process_diff_no_effects env
          (resolve_out_dir env repo out) p diff).1 m h
  · intro e h
    cases hgc : get_changes env (env.resolvePath repo) ds cid with
    | fail mm =>
        rw [run_eq_fail env repo out p ds cid mm hgc] at h
        simp at h
    | ok diff =>
        rw [run_eq_process env repo out p ds cid diff hgc] at h ⊢
        exact (process_diff_no_effects env
          (resolve_out_dir env repo out) p diff).2 e h

theorem C6_witness :
    run_docs_generator envC6 (pystr "/r") none (pystr "openai")
        (pystr "commit") none =
      ⟨.ret false (pystr "Error running git in /r: fatal"),
        none, none, none⟩ :=
  (C6_no_partial_results envC6 (pystr "/r") none (pystr "openai")
    (pystr "commit") none).1 (pystr "Error running git in /r: fatal")
    (by decide)

/-- A sequential boolean filter chain returns `true` exactly when none of
the conditions holds. -/
theorem if_chain_not_or (a1 a2 a3 a4 a5 a6 : Bool) :
    (if a1 then false else if a2 then false else if a3 then false
     else if a4 then false else if a5 then false else if a6 then false
     else true) = !(a1 || a2 || a3 || a4 || a5 || a6) := by
  cases a1 <;> cases a2 <;> cases a3 <;> cases a4 <;> cases a5 <;>
    cases a6 <;> simp

/-- Counterexample to claim C9 as stated: on the entry `"- -"` the code
returns `False` (each token passes the code's lax range test vacuously),
while the claim's literal description — every token digits or a single
digit-digit range — classifies no condition as matching, predicting
`True`. -/
theorem C9_counterexample :
    is_meaningful_history_entry (pystr "- -") = false ∧
    claim_meaningful (pystr "- -") = true := by
  decide

/-- Claim C9 as amended: `is_meaningful_history_entry` returns `False`
exactly when the trimmed entry is empty, a single character, all digits, a
menu word (case-insensitively), contains `-` with all non-empty
`-`-separated parts digits, or is a whitespace-separated list in which
every token is digits or contains exactly one `-` with all of its
non-empty `-`-separated parts digits; it returns `True` otherwise. -/
theorem C9_meaningful_entry_characterised (entry : PyStr) :
    is_meaningful_history_entry entry = !(amended_filtered entry) := by
  unfold is_meaningful_history_entry amended_filtered
  cases entry with
  | nil => rfl
  | cons c cs =>
    rw [show (c :: cs : PyStr).isEmpty = false from rfl, Bool.false_or]
    exact if_chain_not_or _ _ _ _ _ _

/-- Claim C1: a proposal produced by `analyze` has `should_split = true`
exactly when `total_files > max_commit_size` or
`complexity_score > complexity_threshold`; in particular
`total_files = max_commit_size` with complexity at most the threshold does
not split, and `total_files = max_commit_size + 1` with complexity at most
the threshold does. -/
theorem C1_split_trigger (classify : PyStr → ChangeCategory)
    (minViable max_commit_size : Nat) (thr : ℚ) (changes : List FileChange)
    (m : ChangeMetrics) (P : SplitProposal)
    (h : CommitSplitter.analyze classify minViable max_commit_size thr
        changes m = .ok P) :
    (P.should_split = true ↔
      (m.total_files > max_commit_size ∨ m.complexity_score > thr)) ∧
    (m.total_files = max_commit_size → m.complexity_score ≤ thr →
      P.should_split = false) ∧
    (m.total_files = max_commit_size + 1 → m.complexity_score ≤ thr →
      P.should_split = true) := by
  unfold CommitSplitter.analyze at h
  split at h
  · simp at h
  · rw [Except.ok.injEq] at h
    subst h
    refine ⟨?_, ?_, ?_⟩
    · simp
    · intro he hle
      have h1 : ¬ (m.total_files > max_commit_size) := by omega
      have h2 : ¬ (m.complexity_score > thr) := not_lt.mpr hle
      simp [h1, h2]
    · intro he hle
      have h1 : m.total_files > max_commit_size := by omega
      simp [h1]

theorem C1_witness :
    (⟨true, splitRationale true false 1,
        [⟨pystr "source", ChangeCategory.source, [fcDemo]⟩]⟩ :
      SplitProposal).should_split = true :=
  (C1_split_trigger classifyDemo 2 1 0 [fcDemo] ⟨2, 1, 0⟩
    ⟨true, splitRationale true false 1,
      [⟨pystr "source", ChangeCategory.source, [fcDemo]⟩]⟩ rfl).2.2
    rfl (by norm_num)

/-- Claim C4: under the spec's constraints on the tunable weights (all
positive, line factor below the per-file weight), the complexity score is
non-negative, monotonically non-decreasing in each of file count, total
changed lines, directories affected and category diversity with the others
held fixed, and a changeset's score is zero exactly when the changeset is
empty. -/
theorem C4_complexity_contract (w : Weights)
    (classify : PyStr → ChangeCategory) (topDir : PyStr → PyStr)
    (hf : 0 < w.wFile) (hl : 0 < w.wLine) (hlf : w.wLine < w.wFile)
    (hd : 0 < w.wDir) (hc : 0 < w.wCat) :
    (∀ files lines dirs cats, 0 ≤ complexity_score w files lines dirs cats) ∧
    (∀ f1 f2 l d c, f1 ≤ f2 →
      complexity_score w f1 l d c ≤ complexity_score w f2 l d c) ∧
    (∀ f l1 l2 d c, l1 ≤ l2 →
      complexity_score w f l1 d c ≤ complexity_score w f l2 d c) ∧
    (∀ f l d1 d2 c, d1 ≤ d2 →
      complexity_score w f l d1 c ≤ complexity_score w f l d2 c) ∧
    (∀ f l d c1 c2, c1 ≤ c2 →
      complexity_score w f l d c1 ≤ complexity_score w f l d c2) ∧
    (∀ changes, changeset_complexity w classify topDir changes = 0 ↔
      changes = []) := by
  refine ⟨?_, ?_, ?_, ?_, ?_, ?_⟩
  · intro files lines dirs cats
    unfold complexity_score
    have t1 := mul_nonneg hf.le (Nat.cast_nonneg (α := ℚ) files)
    have t2 := mul_nonneg hl.le (Nat.cast_nonneg (α := ℚ) lines)
    have t3 := mul_nonneg hd.le (Nat.cast_nonneg (α := ℚ) dirs)
    have t4 := mul_nonneg hc.le (Nat.cast_nonneg (α := ℚ) cats)
    linarith
  · intro f1 f2 l d c h
    unfold complexity_score
    have hcast : (f1 : ℚ) ≤ f2 := Nat.cast_le.mpr h
    have := mul_le_mul_of_nonneg_left hcast hf.le
    linarith
  · intro f l1 l2 d c h
    unfold complexity_score
    have hcast : (l1 : ℚ) ≤ l2 := Nat.cast_le.mpr h
    have := mul_le_mul_of_nonneg_left hcast hl.le
    linarith
  · intro f l d1 d2 c h
    unfold complexity_score
    have hcast : (d1 : ℚ) ≤ d2 := Nat.cast_le.mpr h
    have := mul_le_mul_of_nonneg_left hcast hd.le
    linarith
  · intro f l d c1 c2 h
    unfold complexity_score
    have hcast : (c1 : ℚ) ≤ c2 := Nat.cast_le.mpr h
    have := mul_le_mul_of_nonneg_left hcast hc.le
    linarith
  · intro changes
    constructor
    · intro h
      by_contra hne
      have hlen : 1 ≤ changes.length := List.length_pos.mpr hne
      have h1 : (1 : ℚ) ≤ changes.length := by exact_mod_cast hlen
      have t2 := mul_nonneg hl.le (Nat.cast_nonneg (α := ℚ) (total_lines changes))
      have t3 := mul_nonneg hd.le
        (Nat.cast_nonneg (α := ℚ) (dirs_affected topDir changes))
      have t4 := mul_nonneg hc.le
        (Nat.cast_nonneg (α := ℚ) (cat_diversity classify changes))
      have t1 := mul_le_mul_of_nonneg_left h1 hf.le
      unfold changeset_complexity complexity_score at h
      rw [mul_one] at t1
      linarith
    · intro h
      subst h
      simp [changeset_complexity, complexity_score, total_lines,
        dirs_affected, cat_diversity]

theorem C4_witness :
    changeset_complexity ⟨1, 1/2, 1, 1⟩ classifyDemo (fun _ => [])
        [fcDemo] = 0 ↔ ([fcDemo] : List FileChange) = [] :=
  (C4_complexity_contract ⟨1, 1/2, 1, 1⟩ classifyDemo (fun _ => [])
    (by norm_num) (by norm_num) (by norm_num) (by norm_num)
    (by norm_num)).2.2.2.2.2 [fcDemo]

/-! ### Partition invariant of the splitter (claim C2) -/

theorem mem_categoryOrder (c : ChangeCategory) : c ∈ categoryOrder := by
  cases c <;> decide

theorem catFiles_cons_eq (classify : PyStr → ChangeCategory)
    (x : FileChange) (xs : List FileChange) (c : ChangeCategory)
    (h : classify x.path = c) :
    catFiles classify (x :: xs) c = x :: catFiles classify xs c := by
  simp [catFiles, List.filter_cons, h]

theorem catFiles_cons_ne (classify : PyStr → ChangeCategory)
    (x : FileChange) (xs : List FileChange) (c : ChangeCategory)
    (h : classify x.path ≠ c) :
    catFiles classify (x :: xs) c = catFiles classify xs c := by
  simp [catFiles, List.filter_cons, h]

theorem join_catFiles_nil (classify : PyStr → ChangeCategory)
    (cats : List ChangeCategory) :
    (cats.map (catFiles classify [])).flatten = [] := by
  induction cats with
  | nil => rfl
  | cons c cs ih => simp [catFiles, ih]

theorem join_catFiles_cons (classify : PyStr → ChangeCategory)
    (x : FileChange) (xs : List FileChange) (cats : List ChangeCategory)
    (hn : cats.Nodup) (hf : classify x.path ∈ cats) :
    ((cats.map (catFiles classify (x :: xs))).flatten).Perm
      (x :: (cats.map (catFiles classify xs)).flatten) := by
  induction cats with
  | nil => cases hf
  | cons c cs ih =>
    rw [List.nodup_cons] at hn
    by_cases hc : classify x.path = c
    · have htail : cs.map (catFiles classify (x :: xs)) =
          cs.map (catFiles classify xs) := by
        apply List.map_congr_left
        intro a ha
        apply catFiles_cons_ne
        intro hx
        have hac : a = c := by rw [← hx, hc]
        exact hn.1 (hac ▸ ha)
      rw [List.map_cons, List.map_cons, catFiles_cons_eq classify x xs c hc,
        htail, List.flatten_cons, List.flatten_cons, List.cons_append]
    · have hcs : classify x.path ∈ cs := by
        rcases List.mem_cons.mp hf with h | h
        · exact absurd h hc
        · exact h
      have ihh := ih hn.2 hcs
      rw [List.map_cons, List.map_cons, catFiles_cons_ne classify x xs c hc,
        List.flatten_cons, List.flatten_cons]
      exact (List.Perm.append_left _ ihh).trans List.perm_middle

theorem join_catFiles_perm (classify : PyStr → ChangeCategory)
    (changes : List FileChange) :
    ((categoryOrder.map (catFiles classify changes)).flatten).Perm changes := by
  induction changes with
  | nil =>
    rw [join_catFiles_nil]
  | cons x xs ih =>
    exact (join_catFiles_cons classify x xs categoryOrder (by decide)
      (mem_categoryOrder _)).trans (ih.cons x)

theorem join_groupFiles_perm (classify : PyStr → ChangeCategory)
    (minViable : Nat) (changes : List FileChange) :
    ((categoryOrder.map (groupFiles classify minViable changes)).flatten).Perm
      ((categoryOrder.map (catFiles classify changes)).flatten) := by
  by_cases hs : mergeStyle classify minViable changes = true <;>
    by_cases hc : mergeConfig classify minViable changes = true <;>
    simp only [categoryOrder, List.map_cons, List.map_nil, List.flatten_cons,
      List.flatten_nil, groupFiles, hs, hc, eq_self_iff_true, if_true,
      if_false, Bool.false_eq_true, ite_true, ite_false, List.append_nil,
      List.nil_append, List.append_assoc]
  · exact (List.perm_append_comm_assoc _ _ _).trans
      (List.Perm.append_left _ (List.Perm.append_left _
        (List.Perm.append_left _ (List.perm_append_comm_assoc _ _ _))))
  · exact List.Perm.append_left _ (List.Perm.append_left _
      (List.Perm.append_left _ (List.perm_append_comm_assoc _ _ _)))
  · exact List.perm_append_comm_assoc _ _ _
  · exact List.Perm.refl _

theorem flatten_filterMap_groups (g : ChangeCategory → List FileChange)
    (cats : List ChangeCategory) :
    (((cats.filterMap (fun c => if g c = [] then none
        else some (SplitGroup.mk (categoryName c) c (g c)))).map
          SplitGroup.files).flatten)
      = (cats.map g).flatten := by
  induction cats with
  | nil => rfl
  | cons c cs ih =>
    rw [List.filterMap_cons]
    by_cases h : g c = []
    · simp [h, ih]
    · simp [h, ih]

theorem analyze_ok_groups (classify : PyStr → ChangeCategory)
    (minViable max_commit_size : Nat) (thr : ℚ) (changes : List FileChange)
    (m : ChangeMetrics) (P : SplitProposal)
    (h : CommitSplitter.analyze classify minViable max_commit_size thr
        changes m = .ok P) :
    P.groups = (if P.should_split then
      makeGroups classify minViable changes else []) := by
  unfold CommitSplitter.analyze at h
  split at h
  · simp at h
  · rw [Except.ok.injEq] at h
    subst h
    rfl

/-- Claim C2: when `analyze` proposes a split, its groups' file lists
joined together are a permutation of the input changeset — no file dropped
or duplicated — and (for a duplicate-free changeset) the groups' file sets
are pairwise disjoint; when no split is proposed, `groups` is empty. -/
theorem C2_partition_invariant (classify : PyStr → ChangeCategory)
    (minViable max_commit_size : Nat) (thr : ℚ) (changes : List FileChange)
    (m : ChangeMetrics) (P : SplitProposal)
    (h : CommitSplitter.analyze classify minViable max_commit_size thr
        changes m = .ok P) :
    (P.should_split = true →
      ((P.groups.map SplitGroup.files).flatten).Perm changes ∧
      (changes.Nodup →
        P.groups.Pairwise (fun g1 g2 => g1.files.Disjoint g2.files))) ∧
    (P.should_split = false → P.groups = []) := by
  have hgg := analyze_ok_groups classify minViable max_commit_size thr
    changes m P h
  constructor
  · intro hs
    rw [hs, if_pos rfl] at hgg
    have hperm : ((P.groups.map SplitGroup.files).flatten).Perm changes := by
      rw [hgg]
      unfold makeGroups
      rw [flatten_filterMap_groups (groupFiles classify minViable changes)
        categoryOrder]
      exact (join_groupFiles_perm classify minViable changes).trans
        (join_catFiles_perm classify changes)
    refine ⟨hperm, ?_⟩
    intro hnd
    have hnodup : ((P.groups.map SplitGroup.files).flatten).Nodup :=
      hperm.symm.nodup hnd
    have hpair := (List.nodup_flatten.mp hnodup).2
    exact List.pairwise_map.mp hpair
  · intro hs
    rw [hs] at hgg
    simpa using hgg

theorem C2_witness :
    (((⟨true, splitRationale true false 1,
          [⟨pystr "source", ChangeCategory.source, [fcDemo, fcDemo2]⟩]⟩ :
        SplitProposal).groups.map SplitGroup.files).flatten).Perm
      [fcDemo, fcDemo2] :=
  (((C2_partition_invariant classifyDemo 3 1 0 [fcDemo, fcDemo2] ⟨2, 1, 0⟩
    ⟨true, splitRationale true false 1,
      [⟨pystr "source", ChangeCategory.source, [fcDemo, fcDemo2]⟩]⟩
    rfl).1) rfl).1

end SonarJacoco
